import Mathlib

/-!
# Verification of the riksdag-api-sync engine

Shallow embedding of `supabase/functions/riksdag-api-sync/index.ts`.
The file contains two variants of the sync engine separated by a document
marker: the circuit-breaker variant (lines 1-956, referred to below as V1)
and the simpler session-scoped batch variant (lines 958-1446, V2).

Modelling conventions:
* JavaScript numbers that only ever hold non-negative integers are `Nat`.
* `Math.floor(x * 0.3)` etc. on the small integers reachable in this code
  agree with exact rational arithmetic `x * 3 / 10` in `Nat` (checked for
  every reachable multiplicand), so scaling is modelled as `x * k / 10`.
* Wall-clock instants (`Date.now()`) are `Nat` milliseconds passed in
  explicitly.
* The Supabase client is modelled by explicit cursor state threading; a
  PostgREST `upsert` updates exactly the supplied columns of the row, so it
  is modelled as a record update of the supplied fields.
* `fetch` is modelled by an environment `env : Nat → FetchOutcome` giving
  the outcome of the n-th attempt of one invocation, plus a counter of how
  many fetches were actually performed.
-/

namespace RiksdagSync

/-! ## Configuration (index.ts lines 25-80) -/

/-- One entry of `API_CONFIG.phases`. -/
structure PhaseConfig where
  priority : Nat
  maxBatchSize : Nat
  defaultBatchSize : Nat
  estimatedTotal : Nat
  deriving DecidableEq, Repr

/-- `API_CONFIG.phases`, in the source's insertion order
(`Object.entries` enumerates string keys in insertion order). -/
def phaseEntries : List (String × PhaseConfig) :=
  [ ("members",    ⟨1, 200, 100, 500⟩),
    ("committees", ⟨2, 50, 25, 100⟩),
    ("documents",  ⟨3, 100, 50, 2000⟩),
    ("debates",    ⟨4, 75, 40, 1500⟩),
    ("votes",      ⟨5, 150, 75, 3000⟩) ]

/-- Key lookup into `API_CONFIG.phases`. -/
def phaseConfig (syncType : String) : Option PhaseConfig :=
  (phaseEntries.find? (fun e => e.1 = syncType)).map (·.2)

/-- `API_CONFIG.baseUrl`. -/
def baseUrl : String := "https://data.riksdag.se"

/-- `API_CONFIG.endpoints` key lookup. -/
def apiEndpoint (syncType : String) : Option String :=
  if syncType = "members" then
    some "/personlista/?iid=&fnamn=&enamn=&f_ar=&kn=&parti=&valkrets=&rdlstatus=&org=&utformat=json&termlista="
  else if syncType = "debates" then
    some "/anforande/?rm=&bet=&punkt=&dok_id=&anf_id=&talare=&parti=&anforandetyp=&anfnr=&anf_datum_from=&anf_datum_tom=&kammaraktivitet=&anf_sekunder=&anf_klockslag_from=&anf_klockslag_tom=&anf_video=&debatt=&utformat=json&a_sz=50"
  else if syncType = "documents" then
    some "/dokumentlista/?sok=&doktyp=&rm=&from=&tom=&ts=&bet=&tempbet=&nr=&org=&iid=&webbtv=&talare=&exakt=&planering=&sort=datum&sortorder=desc&rapport=&utformat=json&a_sz=50"
  else if syncType = "votes" then
    some "/votering/?rm=&bet=&punkt=&valkrets=&rost=&iid=&sz=50&utformat=json"
  else if syncType = "committees" then
    some "/utskott/?iid=&namn=&typ=&utformat=json"
  else none

/-- `CIRCUIT_BREAKER_CONFIG` (lines 51-56). -/
structure CircuitBreakerConfig where
  failureThreshold : Nat
  recoveryTimeout : Nat
  halfOpenMaxCalls : Nat
  timeout : Nat

def CIRCUIT_BREAKER_CONFIG : CircuitBreakerConfig :=
  { failureThreshold := 5
    recoveryTimeout := 300000
    halfOpenMaxCalls := 3
    timeout := 60000 }

/-- `RETRY_CONFIG` (lines 66-73); delays are irrelevant to control flow and
are not modelled beyond their presence. -/
structure RetryConfig where
  maxRetries : Nat
  baseDelay : Nat
  maxDelay : Nat
  backoffMultiplier : Nat
  jitterMax : Nat
  networkTimeoutRetries : Nat

def RETRY_CONFIG : RetryConfig :=
  { maxRetries := 8
    baseDelay := 2000
    maxDelay := 120000
    backoffMultiplier := 2
    jitterMax := 1000
    networkTimeoutRetries := 3 }

/-! ## Circuit breaker (lines 44-63, 100-152) -/

/-- `CircuitBreakerState.state`: 'CLOSED' | 'OPEN' | 'HALF_OPEN'. -/
inductive CBMode where
  | CLOSED
  | OPEN
  | HALF_OPEN
  deriving DecidableEq, Repr

/-- `CircuitBreakerState` (lines 44-49). -/
structure CBState where
  state : CBMode
  failureCount : Nat
  lastFailureTime : Nat
  successCount : Nat
  deriving DecidableEq, Repr

/-- The module initialiser of `circuitBreakerState` (lines 58-63). -/
def initialCBState : CBState :=
  { state := .CLOSED, failureCount := 0, lastFailureTime := 0, successCount := 0 }

/-- `canMakeRequest()` (lines 101-121).  Returns the boolean and the
possibly-updated state (the OPEN-to-HALF_OPEN transition mutates the
module-level state). `now` is `Date.now()`. -/
def canMakeRequest (now : Nat) (cb : CBState) : Bool × CBState :=
  match cb.state with
  | .OPEN =>
      if CIRCUIT_BREAKER_CONFIG.recoveryTimeout < now - cb.lastFailureTime then
        (true, { cb with state := .HALF_OPEN, successCount := 0 })
      else
        (false, cb)
  | .HALF_OPEN =>
      (cb.successCount < CIRCUIT_BREAKER_CONFIG.halfOpenMaxCalls, cb)
  | .CLOSED => (true, cb)

/-- `recordSuccess()` (lines 123-138). -/
def recordSuccess (cb : CBState) : CBState :=
  match cb.state with
  | .HALF_OPEN =>
      let cb := { cb with successCount := cb.successCount + 1 }
      if CIRCUIT_BREAKER_CONFIG.halfOpenMaxCalls ≤ cb.successCount then
        { cb with state := .CLOSED, failureCount := 0 }
      else cb
  | .CLOSED => { cb with failureCount := cb.failureCount - 1 }
  | .OPEN => cb

/-- `recordFailure()` (lines 140-152).  `now` is `Date.now()`. -/
def recordFailure (now : Nat) (cb : CBState) : CBState :=
  let cb := { cb with failureCount := cb.failureCount + 1, lastFailureTime := now }
  if cb.state = .CLOSED ∧ CIRCUIT_BREAKER_CONFIG.failureThreshold ≤ cb.failureCount then
    { cb with state := .OPEN }
  else if cb.state = .HALF_OPEN then
    { cb with state := .OPEN }
  else cb

/-! ## Adaptive batch sizing: `getOptimalBatchSize` (lines 403-435) -/

/-- `getOptimalBatchSize(syncType, responseTime, errorCount)` (lines
403-435).  The circuit-breaker mode read from the module state is passed
explicitly.  `Math.floor(batchSize * c)` for the decimal constants `c` of
the source is written `batchSize * k / 10` with `Nat` division; this agrees
with the JavaScript float computation for every value reachable here. -/
def getOptimalBatchSize (syncType : String) (responseTime : Nat)
    (errorCount : Nat) (cbMode : CBMode) : Nat :=
  match phaseConfig syncType with
  | none => 25
  | some config =>
    let batchSize := config.defaultBatchSize * 5 / 10
    let batchSize :=
      if 15000 < responseTime then max 5 (batchSize * 3 / 10)
      else if 10000 < responseTime then max 10 (batchSize * 5 / 10)
      else if 5000 < responseTime then max 15 (batchSize * 7 / 10)
      else if responseTime < 2000 ∧ errorCount = 0 then
        min config.maxBatchSize (batchSize * 11 / 10)
      else batchSize
    let batchSize :=
      if 5 < errorCount then max 1 (batchSize * 2 / 10)
      else if 3 < errorCount then max 5 (batchSize * 4 / 10)
      else if 1 < errorCount then max 10 (batchSize * 6 / 10)
      else batchSize
    let batchSize :=
      if cbMode = .HALF_OPEN then max 1 (batchSize * 5 / 10)
      else batchSize
    max 1 (min config.maxBatchSize batchSize)

/-! ## URL builder: `buildApiUrl` (lines 437-472) -/

/-- JavaScript `String.prototype.includes` on char lists. -/
def listIncludes (pat : List Char) : List Char → Bool
  | [] => pat.isEmpty
  | c :: rest => pat.isPrefixOf (c :: rest) || listIncludes pat rest

/-- `url.includes(pat)`. -/
def strIncludes (s pat : String) : Bool := listIncludes pat.data s.data

/-- JavaScript `url.replace(/PAT=\d+/, PAT= ++ repl)` where `PAT=` is a
literal such as `sz=`: replaces the first occurrence of the pattern
(the literal immediately followed by one or more digits, the digit run
taken greedily); identity when there is no match. -/
def replaceNumParam (pat repl : List Char) : List Char → List Char
  | [] => []
  | c :: rest =>
    if pat.isPrefixOf (c :: rest) ∧
        (((c :: rest).drop pat.length).headD ' ').isDigit then
      pat ++ repl ++ ((c :: rest).drop pat.length).dropWhile Char.isDigit
    else
      c :: replaceNumParam pat repl rest

/-- JavaScript `url.replace(new RegExp(key + "=[^&]*"), key + "=" ++ enc)`:
replaces the first occurrence of `key=` and the greedy run of non-`&`
characters after it; identity when there is no match. -/
def replaceParamValue (key enc : List Char) : List Char → List Char
  | [] => []
  | c :: rest =>
    if (key ++ [Char.ofNat 61]).isPrefixOf (c :: rest) then
      key ++ [Char.ofNat 61] ++ enc ++
        ((c :: rest).drop (key.length + 1)).dropWhile (fun d => d ≠ Char.ofNat 38)
    else
      c :: replaceParamValue key enc rest

/-- The unreserved characters of JavaScript `encodeURIComponent`:
`A-Z a-z 0-9 - _ . ! ~ * ' ( )` (listed by code point to avoid quoting). -/
def isUriUnreserved (c : Char) : Bool :=
  c.isAlphanum || c.toNat ∈ [45, 95, 46, 33, 126, 42, 39, 40, 41]

/-- Upper-case hexadecimal digit for `n < 16`. -/
def hexDigit (n : Nat) : Char := "0123456789ABCDEF".data.getD n (Char.ofNat 48)

/-- Percent-encode one byte. -/
def percentByte (b : Nat) : List Char :=
  [Char.ofNat 37, hexDigit (b / 16), hexDigit (b % 16)]

/-- JavaScript `encodeURIComponent`: unreserved characters kept, every
other character replaced by the percent-encoding of its UTF-8 bytes. -/
def encodeURIComponent (s : String) : String :=
  ⟨s.data.flatMap (fun c =>
    if isUriUnreserved c then [c]
    else (String.utf8EncodeChar c).flatMap (fun b => percentByte b.toNat))⟩

/-- One step of the filter loop of `buildApiUrl` (lines 459-469): keys
containing `_from` or `_tom` overwrite the existing placeholder in the
template, all other keys are appended; empty values are skipped
(`if (value && value !== '')`). -/
def applyFilter (url : String) (kv : String × String) : String :=
  if kv.2 = "" then url
  else if strIncludes kv.1 "_from" || strIncludes kv.1 "_tom" then
    ⟨replaceParamValue kv.1.data (encodeURIComponent kv.2).data url.data⟩
  else
    url ++ "&" ++ kv.1 ++ "=" ++ encodeURIComponent kv.2

/-- `buildApiUrl(syncType, filters, offset, batchSize)` (lines 437-472).
Filters are an association list in `Object.entries` insertion order.  An
unknown sync type throws (`Except.error`).  Note `url.includes('sz=')`
is a plain substring test, so it is also satisfied by `a_sz=`; the regex
`/sz=\d+/` then rewrites the digits after the first `sz=` occurrence. -/
def buildApiUrl (syncType : String) (filters : List (String × String))
    (offset : Nat := 0) (batchSize : Nat := 50) : Except String String :=
  match apiEndpoint syncType with
  | none => .error ("Unknown sync type: " ++ syncType)
  | some baseEndpoint =>
    let url := baseUrl ++ baseEndpoint
    let url :=
      if strIncludes url "sz=" then
        ⟨replaceNumParam "sz=".data (Nat.repr batchSize).data url.data⟩
      else if strIncludes url "a_sz=" then
        ⟨replaceNumParam "a_sz=".data (Nat.repr batchSize).data url.data⟩
      else url
    let url :=
      if 0 < offset then
        let page := offset / batchSize + 1
        url ++ "&p=" ++ Nat.repr page
      else url
    let url := filters.foldl applyFilter url
    .ok url

/-! ## Response shapes (lines 318-340 and 474-631)

The external API responds with `{ <wrapper>: { <itemKey>: Item | Item[] } }`.
A raw item is modelled by the natural-key fields the mappers read; the
remaining payload fields are irrelevant to control flow and counting and
are collapsed into an opaque tag. -/

/-- One raw item of a response leaf.  `naturalKey` stands for the
type-specific natural-key field(s) read by the upsert
(`intressent_id` / `kod` / `dok_id`+`anforande_nummer` / `dok_id` /
`votering_id`+`intressent_id`); `none` models a record whose natural key
is absent (`undefined`) in the payload.  `payload` tags the remaining
fields. -/
structure RawItem where
  naturalKey : Option String
  payload : Nat
  deriving DecidableEq, Repr

/-- The leaf collection under the item key: either a single non-array
object or an array. -/
inductive LeafVal where
  | single (item : RawItem)
  | array (items : List RawItem)
  deriving DecidableEq, Repr

/-- One wrapper field such as `data.personlista`: `none` when the wrapper
key is absent; `some none` when the wrapper is present but the item key is
absent or null; `some (some l)` when the leaf collection is present. -/
abbrev Wrapper := Option (Option LeafVal)

/-- The JSON object shape read by the sync engine: the five known
wrapper keys plus a count of any unrelated top-level keys. -/
structure ApiData where
  dokumentlista : Wrapper := none
  personlista : Wrapper := none
  anforandelista : Wrapper := none
  voteringlista : Wrapper := none
  utskottslista : Wrapper := none
  extraKeys : Nat := 0
  deriving DecidableEq, Repr

/-- `Object.keys(data).length`. -/
def keysCount (d : ApiData) : Nat :=
  (if d.dokumentlista.isSome then 1 else 0) +
  (if d.personlista.isSome then 1 else 0) +
  (if d.anforandelista.isSome then 1 else 0) +
  (if d.voteringlista.isSome then 1 else 0) +
  (if d.utskottslista.isSome then 1 else 0) + d.extraKeys

/-- `data.<wrapper>?.<itemKey>?.length > 0` (lines 326-331): optional
chaining yields `undefined` for an absent wrapper or item; `.length` of a
single non-array object is `undefined`; and `undefined > 0` is `false`.
Only a present array with positive length satisfies the test. -/
def wrapperHasItems : Wrapper → Bool
  | some (some (.array l)) => 0 < l.length
  | _ => false

/-- `hasData` (lines 326-331). -/
def hasData (d : ApiData) : Bool :=
  wrapperHasItems d.dokumentlista ||
  wrapperHasItems d.personlista ||
  wrapperHasItems d.anforandelista ||
  wrapperHasItems d.voteringlista ||
  wrapperHasItems d.utskottslista

/-! ## `processDataByType` (lines 474-631) -/

/-- Selects the wrapper field read by `processDataByType` for a sync
type (`personlista.person`, `utskottslista.utskott`,
`anforandelista.anforande`, `dokumentlista.dokument`,
`voteringlista.votering`); `none` for an unknown type (no switch case). -/
def leafFor (syncType : String) (d : ApiData) : Option Wrapper :=
  if syncType = "members" then some d.personlista
  else if syncType = "committees" then some d.utskottslista
  else if syncType = "debates" then some d.anforandelista
  else if syncType = "documents" then some d.dokumentlista
  else if syncType = "votes" then some d.voteringlista
  else none

/-- The `Array.isArray(x) ? x : [x]` coercion applied to a present leaf. -/
def coerceLeaf : LeafVal → List RawItem
  | .single item => [item]
  | .array items => items

/-- The item list a `processDataByType` case iterates over: empty when the
leaf is absent (the truthiness guard `if (data.<wrapper>?.<itemKey>)`
fails, `recordsProcessed` stays 0) and the coerced leaf otherwise.  Note
an empty array is truthy in JavaScript, so it passes the guard and yields
an empty iteration. -/
def extractItems (syncType : String) (d : ApiData) : List RawItem :=
  match leafFor syncType d with
  | some (some (some leaf)) => coerceLeaf leaf
  | _ => []

/-- Result of one `processDataByType` call: the returned
`recordsProcessed` plus, for auditing the claim about upserts, the rows
passed to `.upsert` and the subset the storage layer accepted. -/
structure ProcessResult where
  recordsProcessed : Nat
  attempted : List RawItem
  upserted : List RawItem
  deriving DecidableEq, Repr

/-- `processDataByType(syncType, data, supabaseClient)` (lines 474-631).
Every extracted item is passed to `.upsert`; a per-item failure is caught
and logged (lines 501-503 etc.) without affecting the count;
`recordsProcessed` is set to the length of the coerced item list
(`members.length` etc.).  `upsertOk` models which rows the storage layer
accepts. -/
def processDataByType (syncType : String) (d : ApiData)
    (upsertOk : RawItem → Bool) : ProcessResult :=
  let items := extractItems syncType d
  { recordsProcessed := items.length
    attempted := items
    upserted := items.filter upsertOk }

/-- The record count the specification describes for one cycle: items that
carry their natural key are upserted and counted, items missing the
natural key are dropped and not counted.  Modelled from the spec wording
(spec 4.4 and 4.3 step 5); the source has no such filter. -/
def specUpsertedCount (syncType : String) (d : ApiData)
    (upsertOk : RawItem → Bool) : Nat :=
  ((extractItems syncType d).filter
    (fun item => item.naturalKey.isSome && upsertOk item)).length

/-! ## `makeRiksdagRequest` (lines 222-401)

The outcome of the n-th fetch attempt of one invocation is supplied by an
environment `env : Nat → FetchOutcome`.  Backoff, jitter and `Retry-After`
sleeps only delay execution; they never change which branch is taken, so
they are not modelled.  The rate limiter (`rateLimitedRequest`, lines
193-219) likewise only waits and is not modelled.  `performHealthCheck`
(lines 155-190) is summarised by the boolean `healthy`.

The `catch` at line 342 re-processes errors thrown inside the `try`:
`ResponseTooLargeError` (and the pre-`try` `CircuitBreakerOpen` /
`HealthCheckFailed`) are rethrown without retry (lines 379-383), while the
thrown `EndpointNotFound`, `HTTPError`, `InvalidContentType` and the
budget-exhausted `RateLimitExceeded` / `ServerError` errors fall through to
the generic retry (lines 385-395) — so a 404 IS retried — and, when
`retryCount` has reached `maxRetries`, pick up a second `recordFailure`
(line 397) before propagating.  Errors thrown inside the `catch` itself
(`TimeoutError`, `NetworkError`) propagate directly.  The model inlines
this throw-then-catch control flow. -/

/-- Outcome of one `fetch` attempt. -/
inductive FetchOutcome where
  /-- `response.ok` with/without a JSON content type and the parsed body
  (`none` models a `null` JSON document). -/
  | ok (contentTypeJson : Bool) (body : Option ApiData)
  /-- `!response.ok` with this HTTP status. -/
  | status (code : Nat)
  /-- `AbortError` fired by the request timeout. -/
  | abortTimeout
  /-- A network-level `TypeError`. -/
  | networkError
  deriving DecidableEq, Repr

/-- The typed errors `makeRiksdagRequest` can propagate (plus the fuel
artifact `outOfFuel`, unreachable from `makeRiksdagRequest` since every
recursive call increases `retryCount`, which is bounded by the retry
ceilings). -/
inductive CallError where
  | circuitBreakerOpen
  | healthCheckFailed
  | rateLimitExceeded
  | responseTooLarge
  | serverError (code : Nat)
  | endpointNotFound
  | invalidContentType
  | httpError (code : Nat)
  | timeoutError
  | networkError
  | outOfFuel
  deriving DecidableEq, Repr

/-- A successful return `{ isEmpty, data }` of `makeRiksdagRequest`. -/
inductive CallValue where
  /-- `{ isEmpty: true, data }`; the body is `none` for the
  null-or-zero-keys case (line 323 returns `data: null`). -/
  | empty (body : Option ApiData)
  /-- `{ isEmpty: false, data }`. -/
  | payload (d : ApiData)
  deriving DecidableEq, Repr

/-- Process-local state threaded through one call: the module-level
circuit breaker plus a count of the `fetch` calls actually performed. -/
structure CallState where
  cb : CBState
  fetches : Nat
  deriving DecidableEq, Repr

/-- The body of `makeRiksdagRequest(url, retryCount)` (lines 222-401) as a
fuelled recursion; `fuel` only guarantees termination and is chosen large
enough at the entry point to never run out. -/
def makeRiksdagRequestGo (env : Nat → FetchOutcome) (healthy : Bool)
    (now : Nat) : Nat → Nat → CallState → Except CallError CallValue × CallState
  | 0, _, s => (.error .outOfFuel, s)
  | fuel + 1, retryCount, s =>
    -- circuit breaker check (line 224) happens before everything else
    let allowed := canMakeRequest now s.cb
    let s := { s with cb := allowed.2 }
    if !allowed.1 then (.error .circuitBreakerOpen, s)
    -- health check (line 229) before the main fetch
    else if !healthy then (.error .healthCheckFailed, s)
    else
      let s := { s with fetches := s.fetches + 1 }
      match env retryCount with
      | .status code =>
        if code = 429 then
          -- 429 (lines 260-277): wait, then retry while under budget;
          -- at exhaustion the thrown RateLimitExceeded is re-recorded and
          -- rethrown by the generic catch path
          if retryCount < RETRY_CONFIG.maxRetries then
            makeRiksdagRequestGo env healthy now fuel (retryCount + 1) s
          else
            (.error .rateLimitExceeded,
              { s with cb := recordFailure now (recordFailure now s.cb) })
        else if code = 413 ∨ code = 414 then
          -- 413/414 (lines 279-282): recorded once, rethrown by the catch
          -- without retry (line 381)
          (.error .responseTooLarge, { s with cb := recordFailure now s.cb })
        else if 500 ≤ code then
          -- 5xx (lines 284-299): retry while under budget; at exhaustion
          -- the thrown ServerError is re-recorded by the generic catch path
          if retryCount < RETRY_CONFIG.maxRetries then
            makeRiksdagRequestGo env healthy now fuel (retryCount + 1) s
          else
            (.error (.serverError code),
              { s with cb := recordFailure now (recordFailure now s.cb) })
        else if code = 404 then
          -- 404 (lines 301-305): recordFailure, throw EndpointNotFound;
          -- the catch retries it generically (line 385)
          let s := { s with cb := recordFailure now s.cb }
          if retryCount < RETRY_CONFIG.maxRetries then
            makeRiksdagRequestGo env healthy now fuel (retryCount + 1) s
          else
            (.error .endpointNotFound, { s with cb := recordFailure now s.cb })
        else
          -- other non-ok statuses (lines 307-308): like 404 via HTTPError
          let s := { s with cb := recordFailure now s.cb }
          if retryCount < RETRY_CONFIG.maxRetries then
            makeRiksdagRequestGo env healthy now fuel (retryCount + 1) s
          else
            (.error (.httpError code), { s with cb := recordFailure now s.cb })
      | .ok contentTypeJson body =>
        if !contentTypeJson then
          -- lines 311-316: recordFailure, throw InvalidContentType; the
          -- catch retries it generically
          let s := { s with cb := recordFailure now s.cb }
          if retryCount < RETRY_CONFIG.maxRetries then
            makeRiksdagRequestGo env healthy now fuel (retryCount + 1) s
          else
            (.error .invalidContentType, { s with cb := recordFailure now s.cb })
        else
          match body with
          | none =>
            -- `!data` (lines 320-324): success, `{isEmpty: true, data: null}`
            (.ok (.empty none), { s with cb := recordSuccess s.cb })
          | some d =>
            if keysCount d = 0 then
              (.ok (.empty none), { s with cb := recordSuccess s.cb })
            else if !hasData d then
              -- lines 333-337: end of pagination
              (.ok (.empty (some d)), { s with cb := recordSuccess s.cb })
            else
              (.ok (.payload d), { s with cb := recordSuccess s.cb })
      | .abortTimeout =>
        -- AbortError (lines 347-357): smaller retry budget; the terminal
        -- TimeoutError is thrown inside the catch and propagates directly
        if retryCount < RETRY_CONFIG.networkTimeoutRetries then
          makeRiksdagRequestGo env healthy now fuel (retryCount + 1) s
        else
          (.error .timeoutError, { s with cb := recordFailure now s.cb })
      | .networkError =>
        -- network TypeError (lines 359-376): as the timeout case
        if retryCount < RETRY_CONFIG.networkTimeoutRetries then
          makeRiksdagRequestGo env healthy now fuel (retryCount + 1) s
        else
          (.error .networkError, { s with cb := recordFailure now s.cb })

/-- `makeRiksdagRequest(url)` (entry with `retryCount = 0`).  Fuel
`maxRetries + 2` strictly dominates the maximal recursion depth. -/
def makeRiksdagRequest (env : Nat → FetchOutcome) (healthy : Bool)
    (now : Nat) (s : CallState) : Except CallError CallValue × CallState :=
  makeRiksdagRequestGo env healthy now (RETRY_CONFIG.maxRetries + 2) 0 s

/-! ## Sync state (`sync_state` rows) -/

/-- A failure recorded by an invocation: either a typed error propagated
from the resilience layer or the throw for an unknown sync type
(`buildApiUrl`, line 440). -/
inductive SyncFailure where
  | call (e : CallError)
  | unknownType
  deriving DecidableEq, Repr

/-- One `sync_state` row (the durable cursor).  Timestamp columns
(`last_sync_date`, `updated_at`) and the echo columns `api_endpoint` /
`filter_params` never feed back into control flow and are not modelled.
The defaults are the column defaults used when an upsert creates the row. -/
structure SyncCursor where
  sync_type : String
  last_offset : Nat := 0
  total_fetched : Nat := 0
  is_complete : Bool := false
  retry_count : Nat := 0
  last_error : Option SyncFailure := none
  deriving DecidableEq, Repr

/-- The empty-response upsert (V1 lines 732-741 and 835-846): PostgREST
`upsert` updates exactly the supplied columns, so `last_offset` and
`total_fetched` are untouched on an existing row; a missing row is created
with column defaults. -/
def markCompleteUpsert (st : Option SyncCursor) (syncType : String) : SyncCursor :=
  match st with
  | some c => { c with is_complete := true, retry_count := 0, last_error := none }
  | none => { sync_type := syncType, is_complete := true }

/-- The failure-path upsert (V1 lines 749-756 and 930-937): stores the
error message and increments `retry_count` from the loaded state. -/
def recordErrorUpsert (st : Option SyncCursor) (syncType : String)
    (e : SyncFailure) : SyncCursor :=
  match st with
  | some c => { c with last_error := some e, retry_count := c.retry_count + 1 }
  | none => { sync_type := syncType, last_error := some e, retry_count := 1 }

/-! ## V1 single-type execution (lines 796-939) -/

/-- The JSON response of a V1 single-type invocation, restricted to the
fields the claims are about. -/
inductive V1Response where
  /-- `preview=true` short-circuit (lines 813-828). -/
  | previewResp (estimatedBatch : Nat) (currentOffset : Nat)
  /-- `{success: true, message: 'No more data available', recordsProcessed: 0,
  isComplete: true}` (lines 857-866). -/
  | emptyResp (recordsProcessed : Nat) (isComplete : Bool)
  /-- `{success: true, recordsProcessed, totalFetched, isComplete}`
  (lines 896-908). -/
  | successResp (recordsProcessed : Nat) (totalFetched : Nat) (isComplete : Bool)
  /-- The HTTP 500 `{error}` response after the rethrow (lines 942-955). -/
  | errorResp (error : SyncFailure)
  deriving DecidableEq, Repr

/-- Everything observable about one V1 single-type invocation. -/
structure V1Result where
  response : V1Response
  cursor : Option SyncCursor
  fetches : Nat
  cb : CBState
  deriving DecidableEq, Repr

/-- The V1 single-type path of `serve` (lines 796-939), given the loaded
`sync_state` row `st`, the request parameters, the fetch environment and
the process-local circuit breaker.  Note this path has NO `is_complete`
short-circuit: the fetch is attempted regardless of the cursor. -/
def runSingleCycleV1 (syncType : String) (filters : List (String × String))
    (batchSize : Nat) (preview : Bool) (st : Option SyncCursor)
    (upsertOk : RawItem → Bool) (env : Nat → FetchOutcome) (healthy : Bool)
    (now : Nat) (cb : CBState) : V1Result :=
  let currentOffset := (st.map (·.last_offset)).getD 0
  let errorCount := (st.map (·.retry_count)).getD 0
  let optimalBatchSize :=
    if preview then batchSize
    else getOptimalBatchSize syncType 3000 errorCount cb.state
  match buildApiUrl syncType filters currentOffset optimalBatchSize with
  | .error _ =>
      -- `buildApiUrl` throw, caught at line 910: record the failure on the
      -- cursor and return the 500 response
      { response := .errorResp .unknownType
        cursor := some (recordErrorUpsert st syncType .unknownType)
        fetches := 0
        cb := cb }
  | .ok _url =>
    if preview then
      { response := .previewResp optimalBatchSize currentOffset
        cursor := st, fetches := 0, cb := cb }
    else
      let (res, cs) := makeRiksdagRequest env healthy now { cb := cb, fetches := 0 }
      match res with
      | .error e =>
          { response := .errorResp (.call e)
            cursor := some (recordErrorUpsert st syncType (.call e))
            fetches := cs.fetches
            cb := cs.cb }
      | .ok (.empty _) =>
          { response := .emptyResp 0 true
            cursor := some (markCompleteUpsert st syncType)
            fetches := cs.fetches
            cb := cs.cb }
      | .ok (.payload d) =>
          let recordsProcessed := (processDataByType syncType d upsertOk).recordsProcessed
          let newTotal := (st.map (·.total_fetched)).getD 0 + recordsProcessed
          { response := .successResp recordsProcessed newTotal
              (recordsProcessed < optimalBatchSize)
            cursor := some
              { sync_type := syncType
                last_offset := currentOffset + recordsProcessed
                total_fetched := newTotal
                is_complete := recordsProcessed < optimalBatchSize
                retry_count := 0
                last_error := none }
            fetches := cs.fetches
            cb := cs.cb }

/-! ## V2 batch execution (lines 976-1446) -/

/-- The response of a V2 invocation, restricted to the claims' fields. -/
inductive V2Response where
  /-- `{success: true, message: 'Sync already complete. Reset to continue.',
  recordsProcessed: 0}` (lines 1001-1015). -/
  | alreadyComplete (recordsProcessed : Nat)
  /-- `{success: true, recordsProcessed, isComplete}` (lines 1102-1116). -/
  | completed (recordsProcessed : Nat) (isComplete : Bool)
  /-- A thrown error turned into a 4xx/5xx response. -/
  | failed
  deriving DecidableEq, Repr

/-- Observable outcome of a V2 invocation. -/
structure V2Result where
  response : V2Response
  fetches : Nat
  deriving DecidableEq, Repr

/-- The V2 `serve` handler (lines 976-1184) with its `syncXBatch` workers
(lines 1186-1446): the workers fetch the full unfiltered collection
(`allItems`) and slice `[offset, offset + batchSize)`; a missing
`sync_state` row throws (line 995).  What matters for the claims: when the
loaded cursor has `is_complete`, the handler returns the zero-work response
before logging, before progress tracking and before any fetch. -/
def runBatchSyncV2 (st : Option SyncCursor) (batchSize : Nat)
    (allItems : List RawItem) : V2Result :=
  match st with
  | none => { response := .failed, fetches := 0 }
  | some state =>
    if state.is_complete then
      { response := .alreadyComplete 0, fetches := 0 }
    else
      let items := (allItems.drop state.last_offset).take batchSize
      let totalProcessed := items.length
      { response := .completed totalProcessed (totalProcessed < batchSize)
        fetches := 1 }

/-! ## V1 strategic plan (lines 664-792) -/

/-- Stable insertion of a phase entry by ascending priority, modelling the
comparator `(a, b) => a.priority - b.priority`. -/
def insertByPriority (e : String × PhaseConfig) :
    List (String × PhaseConfig) → List (String × PhaseConfig)
  | [] => [e]
  | f :: rest =>
      if f.2.priority ≤ e.2.priority then f :: insertByPriority e rest
      else e :: f :: rest

/-- `Object.entries(API_CONFIG.phases).sort((a, b) => a.priority - b.priority)`
(lines 669-670) as a stable insertion sort. -/
def sortPhases : List (String × PhaseConfig) → List (String × PhaseConfig)
  | [] => []
  | e :: rest => insertByPriority e (sortPhases rest)

/-- The phase list the strategic plan iterates. -/
def sortedPhases : List (String × PhaseConfig) := sortPhases phaseEntries

/-- One entry of the strategic plan's `results` array (pushed at lines
722-728 on success and 759-766 on failure; NO entry is pushed for a
skipped or exhausted-empty phase).  `responseTime` is not modelled. -/
structure PhaseResult where
  phase : String
  processed : Nat
  batchSize : Nat
  error : Option SyncFailure
  isComplete : Bool
  deriving DecidableEq, Repr

/-- One iteration of the strategic plan loop (lines 675-771) for phase
`phaseType`: skip when the loaded cursor is complete; otherwise run one
fetch-map-upsert cycle, catching any cycle error into the phase result
(lines 745-767) so the plan continues.  A `buildApiUrl` throw (impossible
for the five configured phases) would happen outside the per-phase `try`
and abort the whole plan, hence the `Except`.  Returns the optional result
entry, the updated state store and the threaded circuit breaker. -/
def runPhase (filters : List (String × String)) (upsertOk : RawItem → Bool)
    (env : Nat → FetchOutcome) (healthy : Bool) (now : Nat)
    (phaseType : String) (store : String → Option SyncCursor) (cb : CBState) :
    Except SyncFailure
      (Option PhaseResult × (String → Option SyncCursor) × CBState) :=
  let syncState := store phaseType
  if (syncState.map (·.is_complete)).getD false then
    .ok (none, store, cb)
  else
    let currentOffset := (syncState.map (·.last_offset)).getD 0
    let errorCount := (syncState.map (·.retry_count)).getD 0
    let optimalBatchSize := getOptimalBatchSize phaseType 3000 errorCount cb.state
    match buildApiUrl phaseType filters currentOffset optimalBatchSize with
    | .error _ => .error .unknownType
    | .ok _url =>
      let (res, cs) := makeRiksdagRequest env healthy now { cb := cb, fetches := 0 }
      match res with
      | .ok (.payload d) =>
          let processed := (processDataByType phaseType d upsertOk).recordsProcessed
          let newCursor : SyncCursor :=
            { sync_type := phaseType
              last_offset := currentOffset + processed
              total_fetched := (syncState.map (·.total_fetched)).getD 0 + processed
              is_complete := processed < optimalBatchSize
              retry_count := 0
              last_error := none }
          .ok (some { phase := phaseType, processed := processed
                      batchSize := optimalBatchSize, error := none
                      isComplete := processed < optimalBatchSize },
               fun t => if t = phaseType then some newCursor else store t,
               cs.cb)
      | .ok (.empty _) =>
          .ok (none,
               fun t => if t = phaseType then
                 some (markCompleteUpsert syncState phaseType) else store t,
               cs.cb)
      | .error e =>
          .ok (some { phase := phaseType, processed := 0
                      batchSize := optimalBatchSize, error := some (.call e)
                      isComplete := false },
               fun t => if t = phaseType then
                 some (recordErrorUpsert syncState phaseType (.call e)) else store t,
               cs.cb)

/-- The strategic plan loop over a phase list, accumulating
`totalProcessed` and `results` (lines 672-771).  The source adds
`processed` to `totalProcessed` only in the success branch; a failure
entry carries `processed = 0`, so summing every entry's `processed` is
the same number. -/
def runPlanPhases (filters : List (String × String)) (upsertOk : RawItem → Bool)
    (penv : String → Nat → FetchOutcome) (healthy : Bool) (now : Nat) :
    List String → (String → Option SyncCursor) → CBState →
    Except SyncFailure
      (Nat × List PhaseResult × (String → Option SyncCursor) × CBState)
  | [], store, cb => .ok (0, [], store, cb)
  | p :: rest, store, cb =>
    match runPhase filters upsertOk (penv p) healthy now p store cb with
    | .error e => .error e
    | .ok (entry, store1, cb1) =>
      match runPlanPhases filters upsertOk penv healthy now rest store1 cb1 with
      | .error e => .error e
      | .ok (tot, entries, store2, cb2) =>
        .ok ((entry.map (·.processed)).getD 0 + tot,
             entry.toList ++ entries, store2, cb2)

/-- The whole `strategicPlan=true` branch of V1 `serve` (lines 664-792). -/
def runStrategicPlan (filters : List (String × String))
    (upsertOk : RawItem → Bool) (penv : String → Nat → FetchOutcome)
    (healthy : Bool) (now : Nat) (store : String → Option SyncCursor)
    (cb : CBState) :
    Except SyncFailure
      (Nat × List PhaseResult × (String → Option SyncCursor) × CBState) :=
  runPlanPhases filters upsertOk penv healthy now
    (sortedPhases.map (·.1)) store cb

/-- The total and result entries of a plan outcome, discarding the state
store and breaker (whose function type has no decidable equality). -/
def planOutcome
    (r : Except SyncFailure
      (Nat × List PhaseResult × (String → Option SyncCursor) × CBState)) :
    Option (Nat × List PhaseResult) :=
  match r with
  | .ok (tot, entries, _, _) => some (tot, entries)
  | .error _ => none

/-- The stored cursor row for one sync type after a plan outcome. -/
def planStoreAt
    (r : Except SyncFailure
      (Nat × List PhaseResult × (String → Option SyncCursor) × CBState))
    (t : String) : Option (Option SyncCursor) :=
  match r with
  | .ok (_, _, store, _) => some (store t)
  | .error _ => none

/-! ## Helper lemmas -/

theorem phaseConfig_members : phaseConfig "members" = some ⟨1, 200, 100, 500⟩ := rfl

theorem phaseConfig_committees : phaseConfig "committees" = some ⟨2, 50, 25, 100⟩ := rfl

theorem phaseConfig_documents : phaseConfig "documents" = some ⟨3, 100, 50, 2000⟩ := rfl

theorem phaseConfig_debates : phaseConfig "debates" = some ⟨4, 75, 40, 1500⟩ := rfl

theorem phaseConfig_votes : phaseConfig "votes" = some ⟨5, 150, 75, 3000⟩ := rfl

set_option maxHeartbeats 1600000 in
/-- Range bound for `getOptimalBatchSize`, for any configured type. -/
theorem getOptimalBatchSize_range (syncType : String) (cfg : PhaseConfig)
    (hcfg : phaseConfig syncType = some cfg) (hmax : 1 ≤ cfg.maxBatchSize)
    (responseTime errorCount : Nat) (cbMode : CBMode) :
    1 ≤ getOptimalBatchSize syncType responseTime errorCount cbMode ∧
      getOptimalBatchSize syncType responseTime errorCount cbMode ≤ cfg.maxBatchSize := by
  simp only [getOptimalBatchSize, hcfg]
  split_ifs <;> omega

set_option maxHeartbeats 1600000 in
/-- Monotone non-increase of `getOptimalBatchSize` in the error count when
the response time does not exceed 15000 ms.  The two side conditions on the
configuration (the halved default is at least 10 and within the maximum)
hold for all five configured resource types. -/
theorem getOptimalBatchSize_mono (syncType : String) (cfg : PhaseConfig)
    (hcfg : phaseConfig syncType = some cfg)
    (hd : 10 ≤ cfg.defaultBatchSize * 5 / 10)
    (hdm : cfg.defaultBatchSize * 5 / 10 ≤ cfg.maxBatchSize)
    (responseTime : Nat) (hrt : responseTime ≤ 15000) (cbMode : CBMode)
    (ec₁ ec₂ : Nat) (h : ec₁ ≤ ec₂) :
    getOptimalBatchSize syncType responseTime ec₂ cbMode ≤
      getOptimalBatchSize syncType responseTime ec₁ cbMode := by
  simp only [getOptimalBatchSize, hcfg]
  split_ifs <;> omega

/-- The configured resource types. -/
def syncTypeNames : List String :=
  ["members", "committees", "documents", "debates", "votes"]

/-- C7 counterexample: the adaptive batch size is NOT monotonically
non-increasing in the consecutive error count at constant latency.  For
`committees` at 16000 ms latency the batch size is 5 at one error but 10
at two errors: the latency branch shrinks the base to 5, and the error
branch's floor `Math.max(10, ...)` then raises it. -/
theorem claim_C7_counterexample :
    ¬ (∀ responseTime errorCount₁ errorCount₂ : Nat, errorCount₁ ≤ errorCount₂ →
        getOptimalBatchSize "committees" responseTime errorCount₂ .CLOSED ≤
          getOptimalBatchSize "committees" responseTime errorCount₁ .CLOSED) := by
  intro h
  exact absurd (h 16000 1 2 (by decide)) (by decide)

/-- C7 (amended): for every configured resource type the adaptive batch
size always lies within `[1, maxBatchSize]`; and holding latency constant
it is monotonically non-increasing in the consecutive error count whenever
the response time does not exceed 15000 ms (beyond 15000 ms the error
floors can raise a latency-shrunken batch, see the counterexample). -/
theorem claim_C7_amended :
    (∀ syncType, syncType ∈ syncTypeNames → ∀ responseTime errorCount cbMode,
        1 ≤ getOptimalBatchSize syncType responseTime errorCount cbMode ∧
        getOptimalBatchSize syncType responseTime errorCount cbMode ≤
          ((phaseConfig syncType).map (·.maxBatchSize)).getD 0) ∧
    (∀ syncType, syncType ∈ syncTypeNames →
      ∀ responseTime, responseTime ≤ 15000 → ∀ cbMode ec₁ ec₂, ec₁ ≤ ec₂ →
        getOptimalBatchSize syncType responseTime ec₂ cbMode ≤
          getOptimalBatchSize syncType responseTime ec₁ cbMode) := by
  constructor
  · intro syncType hmem responseTime errorCount cbMode
    fin_cases hmem
    · simpa [phaseConfig_members] using
        getOptimalBatchSize_range "members" ⟨1, 200, 100, 500⟩ rfl (by decide)
          responseTime errorCount cbMode
    · simpa [phaseConfig_committees] using
        getOptimalBatchSize_range "committees" ⟨2, 50, 25, 100⟩ rfl (by decide)
          responseTime errorCount cbMode
    · simpa [phaseConfig_documents] using
        getOptimalBatchSize_range "documents" ⟨3, 100, 50, 2000⟩ rfl (by decide)
          responseTime errorCount cbMode
    · simpa [phaseConfig_debates] using
        getOptimalBatchSize_range "debates" ⟨4, 75, 40, 1500⟩ rfl (by decide)
          responseTime errorCount cbMode
    · simpa [phaseConfig_votes] using
        getOptimalBatchSize_range "votes" ⟨5, 150, 75, 3000⟩ rfl (by decide)
          responseTime errorCount cbMode
  · intro syncType hmem responseTime hrt cbMode ec₁ ec₂ h
    fin_cases hmem
    · exact getOptimalBatchSize_mono "members" ⟨1, 200, 100, 500⟩ rfl (by decide)
        (by decide) responseTime hrt cbMode ec₁ ec₂ h
    · exact getOptimalBatchSize_mono "committees" ⟨2, 50, 25, 100⟩ rfl (by decide)
        (by decide) responseTime hrt cbMode ec₁ ec₂ h
    · exact getOptimalBatchSize_mono "documents" ⟨3, 100, 50, 2000⟩ rfl (by decide)
        (by decide) responseTime hrt cbMode ec₁ ec₂ h
    · exact getOptimalBatchSize_mono "debates" ⟨4, 75, 40, 1500⟩ rfl (by decide)
        (by decide) responseTime hrt cbMode ec₁ ec₂ h
    · exact getOptimalBatchSize_mono "votes" ⟨5, 150, 75, 3000⟩ rfl (by decide)
        (by decide) responseTime hrt cbMode ec₁ ec₂ h

/-- Witness for C7 (amended) at concrete inputs. -/
theorem claim_C7_amended_witness :
    (1 ≤ getOptimalBatchSize "committees" 16000 7 .CLOSED ∧
      getOptimalBatchSize "committees" 16000 7 .CLOSED ≤ 50) ∧
    getOptimalBatchSize "members" 1000 3 .CLOSED ≤
      getOptimalBatchSize "members" 1000 1 .CLOSED := by
  constructor
  · simpa [phaseConfig_committees] using
      claim_C7_amended.1 "committees" (by decide) 16000 7 .CLOSED
  · exact claim_C7_amended.2 "members" (by decide) 1000 (by decide) .CLOSED 1 3 (by decide)

/-! ## Fetch-count lemmas for the request model -/

/-- The fetch counter never decreases across a call. -/
theorem makeRiksdagRequestGo_fetches_le (env : Nat → FetchOutcome)
    (healthy : Bool) (now : Nat) :
    ∀ fuel rc (s : CallState),
      s.fetches ≤ (makeRiksdagRequestGo env healthy now fuel rc s).2.fetches := by
  intro fuel
  induction fuel with
  | zero => intro rc s; simp [makeRiksdagRequestGo]
  | succ n ih =>
    intro rc s
    rw [makeRiksdagRequestGo]
    dsimp only
    repeat' split
    all_goals first
      | exact Nat.le_refl _
      | exact Nat.le_succ _
      | exact Nat.le_trans (Nat.le_succ _) (ih _ ⟨_, s.fetches + 1⟩)

/-- When the circuit breaker admits the call and the API is healthy, at
least one fetch is performed. -/
theorem makeRiksdagRequestGo_step_fetches (env : Nat → FetchOutcome)
    (now : Nat) (fuel rc : Nat) (s : CallState)
    (hcb : (canMakeRequest now s.cb).1 = true) :
    s.fetches + 1 ≤ (makeRiksdagRequestGo env true now (fuel + 1) rc s).2.fetches := by
  rw [makeRiksdagRequestGo]
  dsimp only
  simp only [hcb, Bool.not_true, Bool.false_eq_true, if_false]
  repeat' split
  all_goals first
    | exact Nat.le_refl _
    | exact makeRiksdagRequestGo_fetches_le env true now _ _ ⟨_, s.fetches + 1⟩

/-! ## Circuit-breaker transition lemmas -/

theorem recordFailure_lastFailureTime (t : Nat) (cb : CBState) :
    (recordFailure t cb).lastFailureTime = t := by
  simp only [recordFailure]
  split_ifs <;> rfl

theorem recordFailure_closed_state (t : Nat) (cb : CBState) (h : cb.state = .CLOSED)
    (hc : cb.failureCount + 1 < CIRCUIT_BREAKER_CONFIG.failureThreshold) :
    (recordFailure t cb).state = .CLOSED ∧
      (recordFailure t cb).failureCount = cb.failureCount + 1 := by
  simp only [recordFailure, CIRCUIT_BREAKER_CONFIG] at *
  split_ifs <;> simp_all <;> omega

/-- The invariant carried across one `recordFailure` step: the breaker is
either already open, or still closed with at least `k` recorded failures
and strictly under the threshold. -/
theorem recordFailure_invariant (t k : Nat) (cb : CBState)
    (h : cb.state = .OPEN ∨ (cb.state = .CLOSED ∧ k ≤ cb.failureCount ∧
      cb.failureCount < CIRCUIT_BREAKER_CONFIG.failureThreshold)) :
    (recordFailure t cb).state = .OPEN ∨
      ((recordFailure t cb).state = .CLOSED ∧ k + 1 ≤ (recordFailure t cb).failureCount ∧
        (recordFailure t cb).failureCount < CIRCUIT_BREAKER_CONFIG.failureThreshold) := by
  simp only [recordFailure, CIRCUIT_BREAKER_CONFIG] at *
  rcases h with h | ⟨h1, h2, h3⟩ <;> split_ifs <;> simp_all <;> omega

/-- First step of the chain: from any closed state, one failure leaves the
breaker open or closed with a positive in-threshold count. -/
theorem recordFailure_first (t : Nat) (cb : CBState) (h : cb.state = .CLOSED) :
    (recordFailure t cb).state = .OPEN ∨
      ((recordFailure t cb).state = .CLOSED ∧ 1 ≤ (recordFailure t cb).failureCount ∧
        (recordFailure t cb).failureCount < CIRCUIT_BREAKER_CONFIG.failureThreshold) := by
  simp only [recordFailure, CIRCUIT_BREAKER_CONFIG] at *
  split_ifs <;> simp_all <;> omega

/-- Five consecutive recorded failures starting in the Closed state leave
the breaker Open. -/
theorem recordFailure_five_open (t : Nat) (cb : CBState) (h : cb.state = .CLOSED) :
    (recordFailure t (recordFailure t (recordFailure t (recordFailure t
      (recordFailure t cb))))).state = .OPEN := by
  have h1 := recordFailure_first t cb h
  have h2 := recordFailure_invariant t 1 _ h1
  have h3 := recordFailure_invariant t 2 _ h2
  have h4 := recordFailure_invariant t 3 _ h3
  have h5 := recordFailure_invariant t 4 _ h4
  rcases h5 with h5 | ⟨_, h5b, h5c⟩
  · exact h5
  · simp only [CIRCUIT_BREAKER_CONFIG] at h5b h5c
    omega

/-! ## Claim C3 -/

/-- C3 counterexample: an HTTP 404 is NOT a non-retryable failure.  With
every attempt answering 404 from a fresh circuit breaker, the engine
performs five fetches (the initial attempt plus four retries: each 404
throws `EndpointNotFound`, which the generic catch retries); the fifth
failure opens the breaker and the call finally fails with
`CircuitBreakerOpen`, not with the 404's typed error. -/
theorem claim_C3_counterexample :
    (makeRiksdagRequest (fun _ => .status 404) true 0
        ⟨initialCBState, 0⟩).2.fetches = 5 ∧
      (makeRiksdagRequest (fun _ => .status 404) true 0
        ⟨initialCBState, 0⟩).1 = .error .circuitBreakerOpen :=
  ⟨by decide, by rfl⟩

/-- C3 (amended): HTTP 413 and 414 are terminal and non-retryable — the
call fails with the typed `ResponseTooLargeError` after exactly one fetch
and one recorded failure; HTTP 404 however is retried: with the breaker
still under threshold after the first 404, at least a second fetch is
performed. -/
theorem claim_C3_amended (env : Nat → FetchOutcome) (now : Nat) (s : CallState)
    (hclosed : s.cb.state = .CLOSED) :
    ((env 0 = .status 413 ∨ env 0 = .status 414) →
      makeRiksdagRequest env true now s =
        (.error .responseTooLarge,
          { cb := recordFailure now s.cb, fetches := s.fetches + 1 })) ∧
    (env 0 = .status 404 →
      s.cb.failureCount + 1 < CIRCUIT_BREAKER_CONFIG.failureThreshold →
      s.fetches + 2 ≤ (makeRiksdagRequest env true now s).2.fetches) := by
  have hcan : canMakeRequest now s.cb = (true, s.cb) := by
    simp [canMakeRequest, hclosed]
  constructor
  · intro h
    rw [makeRiksdagRequest, makeRiksdagRequestGo]
    dsimp only
    rcases h with h | h <;>
      simp [hcan, h, RETRY_CONFIG]
  · intro h hcount
    rw [makeRiksdagRequest, makeRiksdagRequestGo]
    dsimp only
    simp only [hcan, h, Bool.not_true, Bool.false_eq_true, if_false]
    have h1 : (recordFailure now s.cb).state = .CLOSED :=
      (recordFailure_closed_state now s.cb hclosed hcount).1
    have h2 : (canMakeRequest now (recordFailure now s.cb)).1 = true := by
      simp [canMakeRequest, h1]
    simpa using makeRiksdagRequestGo_step_fetches env now
      (RETRY_CONFIG.maxRetries) 1 ⟨recordFailure now s.cb, s.fetches + 1⟩ h2

/-- Witness for C3 (amended) at concrete inputs. -/
theorem claim_C3_amended_witness :
    makeRiksdagRequest (fun _ => .status 413) true 7 ⟨initialCBState, 0⟩ =
      (.error .responseTooLarge,
        { cb := recordFailure 7 initialCBState, fetches := 1 }) ∧
    2 ≤ (makeRiksdagRequest (fun _ => .status 404) true 7
        ⟨initialCBState, 0⟩).2.fetches := by
  refine ⟨?_, ?_⟩
  · exact (claim_C3_amended (fun _ => .status 413) 7 ⟨initialCBState, 0⟩ rfl).1 (Or.inl rfl)
  · exact (claim_C3_amended (fun _ => .status 404) 7 ⟨initialCBState, 0⟩ rfl).2 rfl (by decide)

/-! ## Claim C2 -/

/-- C2: (i) five consecutive recorded failures from a Closed breaker leave
it Open; (ii) while Open and within `recoveryTimeout` of the last failure,
the next call attempt is rejected with `CircuitBreakerOpen` before any
fetch (the fetch counter is unchanged, and the health check is not even
consulted — the rejection is independent of `healthy`); (iii) once more
than `recoveryTimeout` has elapsed since the last recorded failure, the
next call attempt flips the breaker to HalfOpen, is admitted, and performs
a fetch. -/
theorem claim_C2 (cb : CBState) (hclosed : cb.state = .CLOSED) (t : Nat) :
    (recordFailure t (recordFailure t (recordFailure t (recordFailure t
        (recordFailure t cb))))).state = .OPEN ∧
    (∀ env healthy now₂ fetches0,
      now₂ - t ≤ CIRCUIT_BREAKER_CONFIG.recoveryTimeout →
      makeRiksdagRequest env healthy now₂
          ⟨recordFailure t (recordFailure t (recordFailure t (recordFailure t
            (recordFailure t cb)))), fetches0⟩ =
        (.error .circuitBreakerOpen,
          ⟨recordFailure t (recordFailure t (recordFailure t (recordFailure t
            (recordFailure t cb)))), fetches0⟩)) ∧
    (∀ cbo : CBState, cbo.state = .OPEN →
      ∀ now₃, CIRCUIT_BREAKER_CONFIG.recoveryTimeout < now₃ - cbo.lastFailureTime →
        canMakeRequest now₃ cbo =
          (true, { cbo with state := .HALF_OPEN, successCount := 0 }) ∧
        ∀ env fetches0,
          fetches0 + 1 ≤ (makeRiksdagRequest env true now₃ ⟨cbo, fetches0⟩).2.fetches) := by
  have h5 := recordFailure_five_open t cb hclosed
  refine ⟨h5, ?_, ?_⟩
  · intro env healthy now₂ fetches0 hle
    have hlast : (recordFailure t (recordFailure t (recordFailure t (recordFailure t
        (recordFailure t cb))))).lastFailureTime = t :=
      recordFailure_lastFailureTime t _
    have hnot : ¬ (CIRCUIT_BREAKER_CONFIG.recoveryTimeout <
        now₂ - (recordFailure t (recordFailure t (recordFailure t (recordFailure t
          (recordFailure t cb))))).lastFailureTime) := by
      rw [hlast]; omega
    have hcan : canMakeRequest now₂ (recordFailure t (recordFailure t (recordFailure t
        (recordFailure t (recordFailure t cb))))) =
        (false, recordFailure t (recordFailure t (recordFailure t (recordFailure t
          (recordFailure t cb))))) := by
      simp [canMakeRequest, h5, hnot]
    rw [makeRiksdagRequest, makeRiksdagRequestGo]
    dsimp only
    simp [hcan]
  · intro cbo hopen now₃ hgt
    have hcan : canMakeRequest now₃ cbo =
        (true, { cbo with state := .HALF_OPEN, successCount := 0 }) := by
      simp [canMakeRequest, hopen, hgt]
    refine ⟨hcan, ?_⟩
    intro env fetches0
    have h1 : (canMakeRequest now₃ (⟨cbo, fetches0⟩ : CallState).cb).1 = true := by
      rw [hcan]
    exact makeRiksdagRequestGo_step_fetches env now₃
      (RETRY_CONFIG.maxRetries + 1) 0 ⟨cbo, fetches0⟩ h1

/-- Witness for C2 at concrete inputs. -/
theorem claim_C2_witness :
    (recordFailure 50 (recordFailure 50 (recordFailure 50 (recordFailure 50
        (recordFailure 50 initialCBState))))).state = .OPEN ∧
    makeRiksdagRequest (fun _ => .ok true none) true 100
        ⟨recordFailure 50 (recordFailure 50 (recordFailure 50 (recordFailure 50
          (recordFailure 50 initialCBState)))), 0⟩ =
      (.error .circuitBreakerOpen,
        ⟨recordFailure 50 (recordFailure 50 (recordFailure 50 (recordFailure 50
          (recordFailure 50 initialCBState)))), 0⟩) ∧
    canMakeRequest 300051 (recordFailure 50 (recordFailure 50 (recordFailure 50
        (recordFailure 50 (recordFailure 50 initialCBState))))) =
      (true, { recordFailure 50 (recordFailure 50 (recordFailure 50 (recordFailure 50
        (recordFailure 50 initialCBState)))) with
          state := .HALF_OPEN, successCount := 0 }) ∧
    1 ≤ (makeRiksdagRequest (fun _ => .ok true none) true 300051
        ⟨recordFailure 50 (recordFailure 50 (recordFailure 50 (recordFailure 50
          (recordFailure 50 initialCBState)))), 0⟩).2.fetches := by
  obtain ⟨h1, h2, h3⟩ := claim_C2 initialCBState rfl 50
  refine ⟨h1, h2 (fun _ => .ok true none) true 100 0 (by decide), ?_, ?_⟩
  · exact (h3 _ h1 300051 (by decide)).1
  · exact (h3 _ h1 300051 (by decide)).2 (fun _ => .ok true none) 0

/-! ## Response-classification lemmas -/

theorem wrapperHasItems_isSome (w : Wrapper) (h : wrapperHasItems w = true) :
    w.isSome := by
  rcases w with _ | w
  · simp [wrapperHasItems] at h
  · simp

/-- A response with data is not the empty object. -/
theorem hasData_keysCount (d : ApiData) (h : hasData d = true) : keysCount d ≠ 0 := by
  intro h0
  rw [hasData] at h
  simp only [Bool.or_eq_true] at h
  rcases h with ((((h | h) | h) | h) | h) <;>
    · have hs := wrapperHasItems_isSome _ h
      simp [keysCount, hs] at h0

/-- Evaluation of `makeRiksdagRequest` on a first-attempt JSON payload
that carries data: one fetch, a success recorded, the payload returned. -/
theorem makeRiksdagRequest_payload (env : Nat → FetchOutcome) (now : Nat)
    (s : CallState) (hclosed : s.cb.state = .CLOSED) (d : ApiData)
    (henv : env 0 = .ok true (some d)) (hd : hasData d = true) :
    makeRiksdagRequest env true now s =
      (.ok (.payload d), ⟨recordSuccess s.cb, s.fetches + 1⟩) := by
  have hk : keysCount d ≠ 0 := hasData_keysCount d hd
  have hcan : canMakeRequest now s.cb = (true, s.cb) := by
    simp [canMakeRequest, hclosed]
  rw [makeRiksdagRequest, makeRiksdagRequestGo]
  dsimp only
  simp [hcan, henv, hk, hd]

/-- Evaluation of `makeRiksdagRequest` on a first-attempt JSON body that is
a non-empty object without data in any known leaf: classified empty. -/
theorem makeRiksdagRequest_noData (env : Nat → FetchOutcome) (now : Nat)
    (s : CallState) (hclosed : s.cb.state = .CLOSED) (d : ApiData)
    (henv : env 0 = .ok true (some d)) (hk : keysCount d ≠ 0)
    (hd : hasData d = false) :
    makeRiksdagRequest env true now s =
      (.ok (.empty (some d)), ⟨recordSuccess s.cb, s.fetches + 1⟩) := by
  have hcan : canMakeRequest now s.cb = (true, s.cb) := by
    simp [canMakeRequest, hclosed]
  rw [makeRiksdagRequest, makeRiksdagRequestGo]
  dsimp only
  simp [hcan, henv, hk, hd]

/-- A known sync type always yields a URL. -/
theorem buildApiUrl_ok (syncType : String) (ep : String)
    (hep : apiEndpoint syncType = some ep) (filters : List (String × String))
    (offset batchSize : Nat) :
    ∃ u, buildApiUrl syncType filters offset batchSize = .ok u := by
  rw [buildApiUrl, hep]
  exact ⟨_, rfl⟩

/-! ## Claim C1 -/

/-- C1: a single-type V1 cycle that fetches a non-empty payload marks the
cursor complete exactly when the number of records processed is strictly
below the requested (adaptive) batch size; equality does not mark
complete.  The response reports the same flag and counts. -/
theorem claim_C1 (syncType : String) (filters : List (String × String))
    (batchSize : Nat) (st : Option SyncCursor) (upsertOk : RawItem → Bool)
    (env : Nat → FetchOutcome) (now : Nat) (cb : CBState) (d : ApiData)
    (hknown : (apiEndpoint syncType).isSome)
    (hclosed : cb.state = .CLOSED)
    (henv : env 0 = .ok true (some d)) (hd : hasData d = true) :
    (∃ c, (runSingleCycleV1 syncType filters batchSize false st upsertOk
        env true now cb).cursor = some c ∧
      (c.is_complete = true ↔
        (processDataByType syncType d upsertOk).recordsProcessed <
          getOptimalBatchSize syncType 3000 ((st.map (·.retry_count)).getD 0) cb.state) ∧
      ((processDataByType syncType d upsertOk).recordsProcessed =
          getOptimalBatchSize syncType 3000 ((st.map (·.retry_count)).getD 0) cb.state →
        c.is_complete = false)) ∧
    (runSingleCycleV1 syncType filters batchSize false st upsertOk
        env true now cb).response =
      .successResp (processDataByType syncType d upsertOk).recordsProcessed
        ((st.map (·.total_fetched)).getD 0 +
          (processDataByType syncType d upsertOk).recordsProcessed)
        (decide ((processDataByType syncType d upsertOk).recordsProcessed <
          getOptimalBatchSize syncType 3000 ((st.map (·.retry_count)).getD 0) cb.state)) := by
  obtain ⟨ep, hep⟩ := Option.isSome_iff_exists.mp hknown
  obtain ⟨u, hu⟩ := buildApiUrl_ok syncType ep hep filters
    ((st.map (·.last_offset)).getD 0)
    (getOptimalBatchSize syncType 3000 ((st.map (·.retry_count)).getD 0) cb.state)
  rw [runSingleCycleV1]
  simp only [Bool.false_eq_true, if_false, hu,
    makeRiksdagRequest_payload env now ⟨cb, 0⟩ hclosed d henv hd]
  refine ⟨⟨_, rfl, ?_, ?_⟩, by trivial⟩
  · exact decide_eq_true_iff
  · intro he
    simp [he]

/-- Witness for C1: a two-record payload for members with a fresh cursor;
the requested adaptive batch is 50, so the completion flag is governed by
`2 < 50` through the proven equivalence. -/
theorem claim_C1_witness :
    ∃ c, (runSingleCycleV1 "members" [] 25 false none (fun _ => true)
        (fun _ => .ok true (some { personlista := some (some (.array
          [⟨some "a", 0⟩, ⟨some "b", 1⟩])) })) true 0 initialCBState).cursor = some c ∧
      (c.is_complete = true ↔
        (processDataByType "members" { personlista := some (some (.array
          [⟨some "a", 0⟩, ⟨some "b", 1⟩])) } (fun _ => true)).recordsProcessed <
          getOptimalBatchSize "members" 3000 0 .CLOSED) := by
  obtain ⟨⟨c, hc, hiff, _⟩, _⟩ := claim_C1 "members" [] 25 none (fun _ => true)
    (fun _ => .ok true (some { personlista := some (some (.array
      [⟨some "a", 0⟩, ⟨some "b", 1⟩])) })) 0 initialCBState
    { personlista := some (some (.array [⟨some "a", 0⟩, ⟨some "b", 1⟩])) }
    (by decide) rfl rfl (by decide)
  exact ⟨c, hc, hiff⟩

/-! ## Claim C5 -/

/-- C5: a cycle whose response is `{personlista: {person: []}}` marks the
cursor complete, returns `recordsProcessed = 0`, and leaves `last_offset`
(and `total_fetched`) untouched: the empty-branch upsert only supplies the
completion columns, never the offset. -/
theorem claim_C5 (filters : List (String × String)) (batchSize : Nat)
    (st : SyncCursor) (upsertOk : RawItem → Bool)
    (env : Nat → FetchOutcome) (now : Nat) (cb : CBState)
    (hclosed : cb.state = .CLOSED)
    (henv : env 0 = .ok true (some { personlista := some (some (.array [])) })) :
    runSingleCycleV1 "members" filters batchSize false (some st) upsertOk
        env true now cb =
      { response := .emptyResp 0 true
        cursor :=
          some { st with is_complete := true, retry_count := 0, last_error := none }
        fetches := 1
        cb := recordSuccess cb } := by
  obtain ⟨u, hu⟩ := buildApiUrl_ok "members" _ rfl filters
    (((some st).map (·.last_offset)).getD 0)
    (getOptimalBatchSize "members" 3000 (((some st).map (·.retry_count)).getD 0) cb.state)
  rw [runSingleCycleV1]
  simp only [Bool.false_eq_true, if_false, hu,
    makeRiksdagRequest_noData env now ⟨cb, 0⟩ hclosed _ henv (by decide) (by decide)]
  rfl

/-- Witness for C5 at a concrete cursor. -/
theorem claim_C5_witness :
    runSingleCycleV1 "members" [] 25 false
        (some { sync_type := "members", last_offset := 120, total_fetched := 120 })
        (fun _ => true)
        (fun _ => .ok true (some { personlista := some (some (.array [])) }))
        true 0 initialCBState =
      { response := .emptyResp 0 true
        cursor :=
          some { sync_type := "members", last_offset := 120, total_fetched := 120, is_complete := true }
        fetches := 1
        cb := recordSuccess initialCBState } :=
  claim_C5 [] 25
    { sync_type := "members", last_offset := 120, total_fetched := 120 }
    (fun _ => true) _ 0 initialCBState rfl rfl

/-! ## Claim C6 -/

/-- C6 counterexample: the V1 single-type path has NO `is_complete`
short-circuit.  With a cursor already marked complete, the invocation
still performs a fetch (and, the payload being non-empty, even advances
the cursor from offset 3 to 4). -/
theorem claim_C6_counterexample :
    (runSingleCycleV1 "members" [] 25 false
        (some { sync_type := "members", last_offset := 3, total_fetched := 3, is_complete := true })
        (fun _ => true)
        (fun _ => .ok true (some { personlista := some (some (.array [⟨some "a", 0⟩])) }))
        true 0 initialCBState).fetches = 1 ∧
    (runSingleCycleV1 "members" [] 25 false
        (some { sync_type := "members", last_offset := 3, total_fetched := 3, is_complete := true })
        (fun _ => true)
        (fun _ => .ok true (some { personlista := some (some (.array [⟨some "a", 0⟩])) }))
        true 0 initialCBState).cursor =
      some { sync_type := "members", last_offset := 4, total_fetched := 4, is_complete := true } := by
  exact ⟨by decide, by decide⟩

/-- C6 (amended): only the V2 batch variant returns the zero-work response
without any fetch when the loaded cursor is complete; resuming it requires
an explicit reset.  (The V1 single-type path fetches regardless, see the
counterexample; the V1 strategic plan skips complete phases, see C8.) -/
theorem claim_C6_amended (st : SyncCursor) (batchSize : Nat)
    (allItems : List RawItem) (h : st.is_complete = true) :
    runBatchSyncV2 (some st) batchSize allItems =
      { response := .alreadyComplete 0, fetches := 0 } := by
  simp [runBatchSyncV2, h]

/-- Witness for C6 (amended) at a concrete complete cursor. -/
theorem claim_C6_amended_witness :
    runBatchSyncV2
        (some { sync_type := "members", last_offset := 7, total_fetched := 7, is_complete := true })
        50 [⟨some "a", 0⟩] =
      { response := .alreadyComplete 0, fetches := 0 } :=
  claim_C6_amended
    { sync_type := "members", last_offset := 7, total_fetched := 7, is_complete := true }
    50 [⟨some "a", 0⟩] rfl

/-! ## Claim C9 -/

/-- C9: the code contradicts its own single-item tolerance.  For a members
response whose leaf is a single non-array object, the mapper
(`processDataByType`) would process exactly one record via its
`Array.isArray(x) ? x : [x]` coercion — but `makeRiksdagRequest`'s
`hasData` test (`.length > 0` on a non-array is `undefined > 0`, false)
classifies the response as empty, so the cycle marks the cursor complete
with zero records and the coercion is never reached. -/
theorem claim_C9 :
    hasData { personlista := some (some (.single ⟨some "0123456789", 0⟩)) } = false ∧
    (makeRiksdagRequest
        (fun _ => .ok true (some { personlista := some (some (.single ⟨some "0123456789", 0⟩)) }))
        true 0 ⟨initialCBState, 0⟩).1 =
      .ok (.empty (some { personlista := some (some (.single ⟨some "0123456789", 0⟩)) })) ∧
    (processDataByType "members"
        { personlista := some (some (.single ⟨some "0123456789", 0⟩)) }
        (fun _ => true)).recordsProcessed = 1 ∧
    (runSingleCycleV1 "members" [] 25 false (some { sync_type := "members" })
        (fun _ => true)
        (fun _ => .ok true (some { personlista := some (some (.single ⟨some "0123456789", 0⟩)) }))
        true 0 initialCBState).response = .emptyResp 0 true ∧
    (runSingleCycleV1 "members" [] 25 false (some { sync_type := "members" })
        (fun _ => true)
        (fun _ => .ok true (some { personlista := some (some (.single ⟨some "0123456789", 0⟩)) }))
        true 0 initialCBState).cursor =
      some { sync_type := "members", is_complete := true } :=
  ⟨by decide, by rfl, by decide, by decide, by decide⟩

/-! ## Claim C4 -/

/-- C4 counterexample: `recordsProcessed` does NOT equal the count of
records actually upserted, and a record missing its natural key is NOT
dropped.  For a one-record members payload whose record lacks
`intressent_id` (so the storage layer rejects the row), the code still
attempts the upsert and still counts the record: `recordsProcessed = 1`
while zero rows were accepted, and the spec-side count is 0. -/
theorem claim_C4_counterexample :
    (processDataByType "members" { personlista := some (some (.array [⟨none, 0⟩])) }
        (fun item => item.naturalKey.isSome)).recordsProcessed = 1 ∧
    ((processDataByType "members" { personlista := some (some (.array [⟨none, 0⟩])) }
        (fun item => item.naturalKey.isSome)).upserted).length = 0 ∧
    ((processDataByType "members" { personlista := some (some (.array [⟨none, 0⟩])) }
        (fun item => item.naturalKey.isSome)).attempted).length = 1 ∧
    specUpsertedCount "members" { personlista := some (some (.array [⟨none, 0⟩])) }
        (fun item => item.naturalKey.isSome) = 0 :=
  ⟨by decide, by decide, by decide, by decide⟩

/-- C4 (amended): `recordsProcessed` equals the number of items extracted
from the payload, independently of which upserts the storage layer
accepts; every extracted item — natural key or not — is attempted, and a
per-item failure merely excludes the row from the accepted set without
affecting the count. -/
theorem claim_C4_amended (syncType : String) (d : ApiData)
    (u₁ u₂ : RawItem → Bool) :
    (processDataByType syncType d u₁).recordsProcessed =
      (extractItems syncType d).length ∧
    (processDataByType syncType d u₁).attempted = extractItems syncType d ∧
    (processDataByType syncType d u₁).upserted =
      (extractItems syncType d).filter u₁ ∧
    (processDataByType syncType d u₁).recordsProcessed =
      (processDataByType syncType d u₂).recordsProcessed :=
  ⟨rfl, rfl, rfl, rfl⟩

/-! ## Digit-character lemmas (for C10) -/

theorem digitChar_isDigit (m : Nat) (h : m < 10) :
    (Nat.digitChar m).isDigit = true := by
  interval_cases m <;> decide

theorem toDigitsCore_digits (fuel : Nat) : ∀ (n : Nat) (ds : List Char),
    (∀ c ∈ ds, c.isDigit = true) →
    ∀ c ∈ Nat.toDigitsCore 10 fuel n ds, c.isDigit = true := by
  induction fuel with
  | zero => intro n ds hds c hc; exact hds c hc
  | succ k ih =>
    intro n ds hds c hc
    rw [Nat.toDigitsCore] at hc
    by_cases h : n / 10 = 0
    · simp only [h, if_true, List.mem_cons] at hc
      rcases hc with rfl | hc
      · exact digitChar_isDigit _ (Nat.mod_lt _ (by norm_num))
      · exact hds c hc
    · simp only [h, if_false] at hc
      refine ih (n / 10) _ ?_ c hc
      intro e he
      rcases List.mem_cons.mp he with rfl | he
      · exact digitChar_isDigit _ (Nat.mod_lt _ (by norm_num))
      · exact hds e he

/-- Every character of the decimal representation of a natural number is a
digit. -/
theorem repr_digits (n : Nat) : ∀ c ∈ (Nat.repr n).data, c.isDigit = true := by
  intro c hc
  have hd : (Nat.repr n).data = Nat.toDigitsCore 10 (n + 1) n [] := rfl
  rw [hd] at hc
  exact toDigitsCore_digits (n + 1) n [] (by simp) c hc

/-! ## Claim C10 -/

theorem apiEndpoint_members :
    apiEndpoint "members" =
      some "/personlista/?iid=&fnamn=&enamn=&f_ar=&kn=&parti=&valkrets=&rdlstatus=&org=&utformat=json&termlista=" :=
  rfl

theorem apiEndpoint_committees :
    apiEndpoint "committees" = some "/utskott/?iid=&namn=&typ=&utformat=json" :=
  rfl

/-- Evaluation of `buildApiUrl` without filters for an endpoint whose
template carries no `sz=` (hence no `a_sz=`) substring: no batch-size
parameter is written; only the page suffix depends on the arguments. -/
theorem buildApiUrl_eval (syncType ep : String)
    (hep : apiEndpoint syncType = some ep)
    (hsz : strIncludes (baseUrl ++ ep) "sz=" = false)
    (hasz : strIncludes (baseUrl ++ ep) "a_sz=" = false)
    (offset batchSize : Nat) :
    buildApiUrl syncType [] offset batchSize =
      .ok (if 0 < offset then
            baseUrl ++ ep ++ "&p=" ++ Nat.repr (offset / batchSize + 1)
          else baseUrl ++ ep) := by
  rw [buildApiUrl, hep]
  simp only [hsz, hasz, Bool.false_eq_true, if_false]
  by_cases h : 0 < offset <;> simp [h]

/-- C10: for the members and committees resource types (whose endpoint
templates contain neither `sz=` nor `a_sz=`), the built URL contains no
batch-size parameter at all — no `sz=` substring — for any requested batch
size and offset; and the `batchSize` argument influences the URL only
through the page number `offset / batchSize + 1` appended when
`offset > 0`: two batch sizes yielding the same page yield the same URL. -/
theorem claim_C10 (syncType : String)
    (hmem : syncType = "members" ∨ syncType = "committees") :
    (∀ offset batchSize u,
      buildApiUrl syncType [] offset batchSize = .ok u →
      ¬ ("sz=".data <:+: u.data)) ∧
    (∀ offset b₁ b₂, 0 < b₁ → 0 < b₂ → offset / b₁ = offset / b₂ →
      buildApiUrl syncType [] offset b₁ = buildApiUrl syncType [] offset b₂) := by
  rcases hmem with rfl | rfl <;>
  · refine ⟨?_, ?_⟩
    · intro off bs u hu hsub
      rw [buildApiUrl_eval _ _
        (by first | exact apiEndpoint_members | exact apiEndpoint_committees)
        (by decide) (by decide)] at hu
      injection hu with hu
      subst hu
      have hz := hsub.subset (show (Char.ofNat 122) ∈ "sz=".data by decide)
      by_cases h : 0 < off
      · rw [if_pos h] at hz
        simp only [String.data_append, List.mem_append] at hz
        rcases hz with ((hz | hz) | hz) | hz
        · exact absurd hz (by decide)
        · exact absurd hz (by decide)
        · exact absurd hz (by decide)
        · exact absurd (repr_digits _ _ hz) (by decide)
      · rw [if_neg h] at hz
        simp only [String.data_append, List.mem_append] at hz
        rcases hz with hz | hz
        · exact absurd hz (by decide)
        · exact absurd hz (by decide)
    · intro off b₁ b₂ h₁ h₂ heq
      rw [buildApiUrl_eval _ _
          (by first | exact apiEndpoint_members | exact apiEndpoint_committees)
          (by decide) (by decide),
        buildApiUrl_eval _ _
          (by first | exact apiEndpoint_members | exact apiEndpoint_committees)
          (by decide) (by decide), heq]

/-- Witness for C10 at concrete inputs. -/
theorem claim_C10_witness :
    (¬ ("sz=".data <:+:
      "https://data.riksdag.se/utskott/?iid=&namn=&typ=&utformat=json&p=3".data)) ∧
    buildApiUrl "committees" [] 50 30 = buildApiUrl "committees" [] 50 40 := by
  constructor
  · exact (claim_C10 "committees" (Or.inr rfl)).1 50 25 _ (by rfl)
  · exact (claim_C10 "committees" (Or.inr rfl)).2 50 30 40 (by decide) (by decide) (by decide)

/-! ## Claim C8 -/

/-- C8: the strategic plan (i) iterates the resource types in strictly
ascending priority order (members, committees, documents, debates, votes);
(ii) `totalProcessed` is the sum of the record counts of the pushed phase
results (failure entries carry 0); (iii) a phase whose stored cursor is
complete is skipped — no fetch, no result entry, no state change, breaker
untouched; (iv) in a concrete plan where members yields 2 records,
committees is already complete, documents throws `ResponseTooLargeError`
(HTTP 413), debates yields 1 and votes yields 3, the plan still executes
all later phases: the summary is `totalProcessed = 6` with result entries
for members (2), documents (failed, with its error), debates (1) and
votes (3), the committees row is untouched, and the documents row records
the error with `retry_count = 1`. -/
theorem claim_C8 :
    (sortedPhases.map (·.1) =
        ["members", "committees", "documents", "debates", "votes"] ∧
      List.Pairwise (fun a b => a.2.priority < b.2.priority) sortedPhases) ∧
    (∀ filters upsertOk penv healthy now phases store cb tot entries store2 cb2,
      runPlanPhases filters upsertOk penv healthy now phases store cb =
        .ok (tot, entries, store2, cb2) →
      tot = (entries.map (·.processed)).sum) ∧
    (∀ filters upsertOk env healthy now phaseType store cb c,
      store phaseType = some c → c.is_complete = true →
      runPhase filters upsertOk env healthy now phaseType store cb =
        .ok (none, store, cb)) ∧
    (planOutcome (runStrategicPlan [] (fun _ => true)
        (fun t => if t = "members" then
            (fun _ => .ok true (some { personlista := some (some (.array
              [⟨some "m1", 0⟩, ⟨some "m2", 0⟩])) }))
          else if t = "documents" then (fun _ => .status 413)
          else if t = "debates" then
            (fun _ => .ok true (some { anforandelista := some (some (.array
              [⟨some "d1", 0⟩])) }))
          else if t = "votes" then
            (fun _ => .ok true (some { voteringlista := some (some (.array
              [⟨some "v1", 0⟩, ⟨some "v2", 0⟩, ⟨some "v3", 0⟩])) }))
          else (fun _ => .ok true none))
        true 1000
        (fun t => if t = "members" then some { sync_type := "members" }
          else if t = "committees" then
            some { sync_type := "committees", is_complete := true }
          else if t = "documents" then some { sync_type := "documents" }
          else if t = "debates" then some { sync_type := "debates" }
          else if t = "votes" then some { sync_type := "votes" }
          else none)
        initialCBState) =
      some (6,
        [{ phase := "members", processed := 2, batchSize := 50, error := none,
           isComplete := true },
         { phase := "documents", processed := 0, batchSize := 25,
           error := some (.call .responseTooLarge), isComplete := false },
         { phase := "debates", processed := 1, batchSize := 20, error := none,
           isComplete := true },
         { phase := "votes", processed := 3, batchSize := 37, error := none,
           isComplete := true }]) ∧
      planStoreAt (runStrategicPlan [] (fun _ => true)
        (fun t => if t = "members" then
            (fun _ => .ok true (some { personlista := some (some (.array
              [⟨some "m1", 0⟩, ⟨some "m2", 0⟩])) }))
          else if t = "documents" then (fun _ => .status 413)
          else if t = "debates" then
            (fun _ => .ok true (some { anforandelista := some (some (.array
              [⟨some "d1", 0⟩])) }))
          else if t = "votes" then
            (fun _ => .ok true (some { voteringlista := some (some (.array
              [⟨some "v1", 0⟩, ⟨some "v2", 0⟩, ⟨some "v3", 0⟩])) }))
          else (fun _ => .ok true none))
        true 1000
        (fun t => if t = "members" then some { sync_type := "members" }
          else if t = "committees" then
            some { sync_type := "committees", is_complete := true }
          else if t = "documents" then some { sync_type := "documents" }
          else if t = "debates" then some { sync_type := "debates" }
          else if t = "votes" then some { sync_type := "votes" }
          else none)
        initialCBState) "committees" =
      some (some { sync_type := "committees", is_complete := true }) ∧
      planStoreAt (runStrategicPlan [] (fun _ => true)
        (fun t => if t = "members" then
            (fun _ => .ok true (some { personlista := some (some (.array
              [⟨some "m1", 0⟩, ⟨some "m2", 0⟩])) }))
          else if t = "documents" then (fun _ => .status 413)
          else if t = "debates" then
            (fun _ => .ok true (some { anforandelista := some (some (.array
              [⟨some "d1", 0⟩])) }))
          else if t = "votes" then
            (fun _ => .ok true (some { voteringlista := some (some (.array
              [⟨some "v1", 0⟩, ⟨some "v2", 0⟩, ⟨some "v3", 0⟩])) }))
          else (fun _ => .ok true none))
        true 1000
        (fun t => if t = "members" then some { sync_type := "members" }
          else if t = "committees" then
            some { sync_type := "committees", is_complete := true }
          else if t = "documents" then some { sync_type := "documents" }
          else if t = "debates" then some { sync_type := "debates" }
          else if t = "votes" then some { sync_type := "votes" }
          else none)
        initialCBState) "documents" =
      some (some { sync_type := "documents", retry_count := 1, last_error := some (.call .responseTooLarge) })) := by
  refine ⟨⟨by decide, by decide⟩, ?_, ?_, by decide, by decide, by decide⟩
  · intro filters upsertOk penv healthy now phases
    induction phases with
    | nil =>
      intro store cb tot entries store2 cb2 h
      rw [runPlanPhases] at h
      injection h with h
      simp only [Prod.mk.injEq] at h
      obtain ⟨h1, h2, -⟩ := h
      subst h1
      subst h2
      rfl
    | cons p rest ih =>
      intro store cb tot entries store2 cb2 h
      rw [runPlanPhases] at h
      cases hp : runPhase filters upsertOk (penv p) healthy now p store cb with
      | error e =>
        simp only [hp] at h
        exact Except.noConfusion h
      | ok val =>
        obtain ⟨entry, store1, cb1⟩ := val
        simp only [hp] at h
        cases hr : runPlanPhases filters upsertOk penv healthy now rest store1 cb1 with
        | error e =>
          simp only [hr] at h
          exact Except.noConfusion h
        | ok val2 =>
          obtain ⟨tot', entries', store2', cb2'⟩ := val2
          simp only [hr] at h
          injection h with h
          simp only [Prod.mk.injEq] at h
          obtain ⟨h1, h2, -⟩ := h
          subst h1
          subst h2
          have htot := ih store1 cb1 tot' entries' store2' cb2' hr
          cases entry with
          | none => simpa using htot
          | some e => simp [htot]
  · intro filters upsertOk env healthy now phaseType store cb c hst hc
    rw [runPhase]
    simp [hst, hc]

/-- Witness for C8 at concrete inputs: the aggregation lemma applied to
the empty plan, and the skip lemma applied to a concrete complete
cursor. -/
theorem claim_C8_witness :
    (0 : Nat) = (([] : List PhaseResult).map (·.processed)).sum ∧
    runPhase [] (fun _ => true) (fun _ => .ok true none) true 0 "members"
        (fun _ => some { sync_type := "members", is_complete := true })
        initialCBState =
      .ok (none, fun _ => some { sync_type := "members", is_complete := true },
        initialCBState) := by
  constructor
  · exact claim_C8.2.1 [] (fun _ => true) (fun _ _ => .ok true none) true 0 []
      (fun _ => none) initialCBState 0 [] (fun _ => none) initialCBState rfl
  · exact claim_C8.2.2.1 [] (fun _ => true) (fun _ => .ok true none) true 0
      "members" _ initialCBState _ rfl rfl

end RiksdagSync
